import Mathlib

/-!
Verification development for the dovecot login-proxy core and its SASL
client mechanisms. Definitions are shallow embeddings of the C sources
(src/login-common/login-proxy.c, src/lib-sasl/mech-plain.c,
src/lib-sasl/mech-login.c); theorems settle the specified properties.
Byte strings are modelled as lists of naturals, C timestamps as integer
millisecond counts, unsigned C counters as naturals.
-/

namespace Dovecot

/-- Result codes of the dsasl client API (dsasl-client.h,
enum dsasl_client_result). -/
inductive DsaslClientResult where
  | ok
  | authFailed
  | errProtocol
  | errInternal
deriving DecidableEq

/-- Credentials of a dsasl client (struct dsasl_client_settings together
with the password copy stored in struct dsasl_client). A missing C string
(NULL) is none. -/
structure DsaslSettings where
  authid : Option (List Nat)
  authzid : Option (List Nat)
  password : Option (List Nat)

/-- struct plain_dsasl_client (mech-plain.c): settings plus the
output_sent flag. -/
structure PlainDsaslClient where
  set : DsaslSettings
  output_sent : Bool

/-- mech_plain_input (mech-plain.c lines 12-30). The challenge bytes are
only tested for emptiness; the client state is never changed. -/
def mech_plain_input (c : PlainDsaslClient) (input : List Nat) :
    DsaslClientResult :=
  if !c.output_sent then
    if input.length > 0 then .errProtocol
    else .ok
  else .errProtocol

/-- mech_plain_output (mech-plain.c lines 32-62): produce
authzid NUL authid NUL password (authzid part empty when unset) and set
output_sent. On missing authid or password: internal error, no bytes. -/
def mech_plain_output (c : PlainDsaslClient) :
    DsaslClientResult × List Nat × PlainDsaslClient :=
  match c.set.authid, c.set.password with
  | none, _ => (.errInternal, [], c)
  | some _, none => (.errInternal, [], c)
  | some authid, some password =>
      let str :=
        (match c.set.authzid with
         | some authzid => authzid
         | none => []) ++ [0] ++ authid ++ [0] ++ password
      (.ok, str, { c with output_sent := true })

/-- Three-valued counter of the LOGIN mechanism (mech-login.c,
enum login_state). -/
inductive LoginState where
  | STATE_INIT
  | STATE_USER
  | STATE_PASS
deriving DecidableEq

/-- The state advance performed by client->state++ in mech_login_input. -/
def loginStateNext : LoginState → LoginState
  | .STATE_INIT => .STATE_USER
  | .STATE_USER => .STATE_PASS
  | .STATE_PASS => .STATE_PASS

/-- struct login_dsasl_client (mech-login.c). -/
structure LoginDsaslClient where
  set : DsaslSettings
  state : LoginState

/-- mech_login_input (mech-login.c lines 18-33): the challenge bytes are
ignored entirely; in STATE_PASS the server failed to finish, otherwise
the state counter advances. -/
def mech_login_input (c : LoginDsaslClient) (_input : List Nat) :
    DsaslClientResult × LoginDsaslClient :=
  if c.state = .STATE_PASS then (.errProtocol, c)
  else (.ok, { c with state := loginStateNext c.state })

/-- mech_login_output (mech-login.c lines 35-67): empty string in
STATE_INIT, authid in STATE_USER, password in STATE_PASS; internal error
when authid or password is unset. -/
def mech_login_output (c : LoginDsaslClient) :
    DsaslClientResult × List Nat :=
  match c.set.authid, c.set.password with
  | none, _ => (.errInternal, [])
  | some _, none => (.errInternal, [])
  | some authid, some password =>
      match c.state with
      | .STATE_INIT => (.ok, [])
      | .STATE_USER => (.ok, authid)
      | .STATE_PASS => (.ok, password)

/-- PROXY_MAX_OUTBUF_SIZE (login-proxy.c line 29). -/
def PROXY_MAX_OUTBUF_SIZE : Nat := 1024

/-- PROXY_CONNECT_RETRY_MSECS (login-proxy.c line 36). -/
def PROXY_CONNECT_RETRY_MSECS : Nat := 1000

/-- PROXY_CONNECT_RETRY_MIN_MSECS (login-proxy.c line 38). -/
def PROXY_CONNECT_RETRY_MIN_MSECS : Nat := PROXY_CONNECT_RETRY_MSECS + 100

/-- PROXY_DISCONNECT_INTERVAL_MSECS (login-proxy.c line 39). -/
def PROXY_DISCONNECT_INTERVAL_MSECS : Nat := 100

/-- PROXY_REDIRECT_LOOP_MIN_COUNT (login-proxy.c line 43). -/
def PROXY_REDIRECT_LOOP_MIN_COUNT : Nat := 2

/-- C SIZE_MAX on a 64-bit host: the server ostream is created with an
unlimited buffer (proxy_plain_connected, line 236). -/
def SIZE_MAX : Nat := 2 ^ 64 - 1

/-- enum login_proxy_failure_type (login-proxy.h), as dispatched on by
login_proxy_failed. -/
inductive LoginProxyFailureType where
  | internal
  | internalConfig
  | connectFailure
  | remote
  | remoteConfig
  | protocolError
  | authReplied
  | authNotReplied
  | authTempfail
  | authRedirect

/-- One entry of struct login_proxy.redirect_path
(struct login_proxy_redirect, login-proxy.c lines 52-56). IP addresses
are modelled as abstract numeric identifiers. -/
structure LoginProxyRedirect where
  ip : Nat
  port : Nat
  count : Nat

/-- struct login_proxy_record (login-proxy-state.h), the shared
per-destination health record: the fields mutated by login-proxy.c.
Timestamps are integer milliseconds; counters are naturals as the C
fields are unsigned. -/
structure LoginProxyRecord where
  last_success : Int
  last_failure : Int
  num_waiting_connections : Nat
  num_proxying_connections : Nat
  num_disconnects_since_ts : Nat
  num_delayed_client_disconnects : Nat
  disconnect_timestamp : Int

/-- The client fields of struct client that login-proxy.c reads,
including the per-process settings reached through client->set. -/
structure ClientInfo where
  virtual_user : String
  proxy_ttl : Nat
  local_ip : Nat
  local_port : Nat
  login_proxy_max_reconnects : Nat
  login_proxy_max_disconnect_delay : Nat
  output_max_buffer : Nat

/-- struct login_proxy (login-proxy.c lines 58-104) restricted to the
state the verified operations touch, together with the DestRec the proxy
currently points at (state_rec) and its registry memberships. Timers are
modelled by the armed delay (none = timer slot empty); streams, fds and
watchers by liveness booleans plus their max buffer sizes. -/
structure LoginProxy where
  client : ClientInfo
  ip : Nat
  port : Nat
  host : Nat
  state_rec : LoginProxyRecord
  rec_key : Nat × Nat
  redirect_path : List LoginProxyRedirect
  connect_timeout_msecs : Nat
  notify_refresh_secs : Nat
  reconnect_count : Nat
  created : Int
  to_timer : Option Nat
  to_notify_timer : Option Nat
  has_server_input : Bool
  has_server_output : Bool
  server_output_max_buffer : Nat
  has_client_input : Bool
  has_client_output : Bool
  client_output_max_buffer : Nat
  has_iostream_proxy : Bool
  has_client_wait_watch : Bool
  server_fd_open : Bool
  has_multiplex_orig_input : Bool
  client_multiplex_output_matches : Bool
  client_multiplex_orig_output_max : Nat
  on_pending_list : Bool
  on_detached_list : Bool
  on_disconnecting_list : Bool
  in_user_hash : Bool
  connected : Bool
  detached : Bool
  destroying : Bool
  delayed_disconnect : Bool
  disable_reconnect : Bool
  anvil_connect_sent : Bool
  num_waiting_connections_updated : Bool

/-- Event-loop environment of one callback: the current monotonic time
in milliseconds (ioloop_timeval) and the value drawn by
i_rand_limit(PROXY_DISCONNECT_INTERVAL_MSECS). -/
structure Env where
  now : Int
  jitter : Nat

/-- login_proxy_disconnect (login-proxy.c lines 555-586): remove both
timers, release the waiting-connection slot unless already counted,
release the proxying slot when connected, drop the byte pump, streams
and server fd, and clear the connected flag. -/
def login_proxy_disconnect (p : LoginProxy) : LoginProxy :=
  let p := { p with to_timer := none, to_notify_timer := none }
  let p :=
    if !p.num_waiting_connections_updated then
      { p with
        state_rec := { p.state_rec with
                 num_waiting_connections := p.state_rec.num_waiting_connections - 1 },
        num_waiting_connections_updated := true }
    else p
  let p :=
    if p.connected then
      { p with
        state_rec := { p.state_rec with
                 num_proxying_connections := p.state_rec.num_proxying_connections - 1 } }
    else p
  { p with
    has_iostream_proxy := false,
    has_server_input := false,
    has_server_output := false,
    has_multiplex_orig_input := false,
    server_fd_open := false,
    connected := false }

/-- login_proxy_detached_unlink (login-proxy.c lines 607-628): leave the
detached list and the by-virtual-user hash. -/
def login_proxy_detached_unlink (p : LoginProxy) : LoginProxy :=
  { p with on_detached_list := false, in_user_hash := false }

/-- login_proxy_delay_disconnect (login-proxy.c lines 654-707). Returns
the chosen delay in milliseconds (0 = disconnect now) and the updated
state. On the first disconnect since the counter reset the smear anchor
is re-randomized; the counter is always incremented; then the function
decides between immediate disconnect and scheduling the final free at
anchor + offset. -/
def login_proxy_delay_disconnect (e : Env) (p : LoginProxy) :
    Nat × LoginProxy :=
  let max_delay := p.client.login_proxy_max_disconnect_delay
  let rec1 :=
    if p.state_rec.num_disconnects_since_ts = 0 then
      { p.state_rec with disconnect_timestamp := e.now + (e.jitter : Int) }
    else p.state_rec
  let rec2 :=
    { rec1 with num_disconnects_since_ts := rec1.num_disconnects_since_ts + 1 }
  let p := { p with state_rec := rec2 }
  if p.to_timer.isSome then
    (0, p)
  else if max_delay = 0 then
    (0, p)
  else
    let max_conns :=
      rec2.num_proxying_connections + rec2.num_disconnects_since_ts
    let max_disconnects_per_sec := (max_conns + max_delay - 1) / max_delay
    if rec2.num_disconnects_since_ts ≤ max_disconnects_per_sec ∧
        rec2.num_delayed_client_disconnects = 0 then
      (0, p)
    else
      let delay_msecs_since_ts := PROXY_DISCONNECT_INTERVAL_MSECS *
        (max_delay * rec2.num_disconnects_since_ts *
          (1000 / PROXY_DISCONNECT_INTERVAL_MSECS) / max_conns)
      let disconnect_time : Int :=
        rec2.disconnect_timestamp + (delay_msecs_since_ts : Int)
      let delay_msecs : Int := disconnect_time - e.now
      if delay_msecs ≤ 0 then
        (0, p)
      else
        (delay_msecs.toNat,
         { p with
           state_rec := { rec2 with
                    num_delayed_client_disconnects :=
                      rec2.num_delayed_client_disconnects + 1 },
           delayed_disconnect := true,
           to_timer := some delay_msecs.toNat,
           on_disconnecting_list := true })

/-- login_proxy_free_final (login-proxy.c lines 630-652): for a
delayed-disconnect proxy leave the disconnecting list, release the
delayed-disconnect slot — resetting num_disconnects_since_ts when it was
the last one — and drop the timer; then drop the client-side watcher and
streams. -/
def login_proxy_free_final (p : LoginProxy) : LoginProxy :=
  let p :=
    if p.delayed_disconnect then
      let p := { p with on_disconnecting_list := false }
      let rec1 : LoginProxyRecord :=
        { p.state_rec with
          num_delayed_client_disconnects :=
            p.state_rec.num_delayed_client_disconnects - 1 }
      let rec2 :=
        if rec1.num_delayed_client_disconnects = 0 then
          { rec1 with num_disconnects_since_ts := 0 }
        else rec1
      { p with state_rec := rec2, to_timer := none }
    else p
  { p with
    has_client_wait_watch := false,
    has_client_input := false,
    has_client_output := false }

/-- login_proxy_free_full (login-proxy.c lines 709-793), state part:
guarded by the write-once destroying flag; disconnects the server side;
a detached proxy is unlinked from the detached registries and, when the
DELAYED flag is given, run through the disconnect smear — a zero delay
frees finally now, a positive delay leaves the proxy waiting on the
client with a wait watcher; a pending proxy leaves the pending list and
is freed finally. -/
def login_proxy_free_full (e : Env) (delayed_flag : Bool)
    (p : LoginProxy) : LoginProxy :=
  if p.destroying then p
  else
    let p := { p with destroying := true }
    let p := login_proxy_disconnect p
    if p.detached then
      let p := login_proxy_detached_unlink p
      let r :=
        if delayed_flag then login_proxy_delay_disconnect e p else (0, p)
      let delay_ms := r.1
      let p := r.2
      if delay_ms = 0 then login_proxy_free_final p
      else { p with has_client_wait_watch := true }
    else
      let p := { p with on_pending_list := false }
      login_proxy_free_final p

/-- proxy_try_reconnect (login-proxy.c lines 343-365): no retry when the
reconnect budget is exhausted, reconnects are disabled, time moved
backwards, or the remaining connect budget is at most
PROXY_CONNECT_RETRY_MIN_MSECS; otherwise disconnect the server side, arm
a one-shot PROXY_CONNECT_RETRY_MSECS timer re-entering connect, and bump
the reconnect counter. -/
def proxy_try_reconnect (e : Env) (p : LoginProxy) : Bool × LoginProxy :=
  if p.reconnect_count ≥ p.client.login_proxy_max_reconnects then (false, p)
  else if p.disable_reconnect then (false, p)
  else
    let since_started_msecs : Int := e.now - p.created
    if since_started_msecs < 0 then (false, p)
    else
      let left_msecs : Int :=
        (p.connect_timeout_msecs : Int) - since_started_msecs
      if left_msecs ≤ (PROXY_CONNECT_RETRY_MIN_MSECS : Int) then (false, p)
      else
        let p := login_proxy_disconnect p
        let p :=
          { p with
            to_timer := some PROXY_CONNECT_RETRY_MSECS,
            reconnect_count := p.reconnect_count + 1 }
        (true, p)

/-- proxy_is_self (login-proxy.c lines 367-371): the candidate address
equals the proxy's current destination address. -/
def proxy_is_self (p : LoginProxy) (ip port : Nat) : Bool :=
  p.ip == ip && p.port == port

/-- login_proxy_redirect_find (login-proxy.c lines 373-387): first
redirect-path entry matching the address, if any. -/
def login_proxy_redirect_find (p : LoginProxy) (ip port : Nat) :
    Option LoginProxyRedirect :=
  p.redirect_path.find? (fun r => r.ip == ip && r.port == port)

/-- Bump the counter of the first redirect-path entry matching the
address (the redirect->count++ on the entry returned by
login_proxy_redirect_find). -/
def redirect_bump_first (path : List LoginProxyRedirect) (ip port : Nat) :
    List LoginProxyRedirect :=
  match path with
  | [] => []
  | r :: rs =>
      if r.ip == ip && r.port == port then
        { r with count := r.count + 1 } :: rs
      else r :: redirect_bump_first rs ip port

/-- login_proxy_set_destination (login-proxy.c lines 306-323): rewrite
host/ip/port and re-bind state_rec to the registry record of the new
address (the registry lookup itself is abstracted by rec_key). -/
def login_proxy_set_destination (p : LoginProxy) (ip port : Nat) :
    LoginProxy :=
  { p with ip := ip, host := ip, port := port, rec_key := (ip, port) }

/-- Observable outcome of login_proxy_redirect_finish: either a failure
handed to login_proxy_failed (which for internalConfig never reconnects)
or the rewritten proxy state on which login_proxy_connect is re-entered. -/
inductive RedirectOutcome where
  | failed (ftype : LoginProxyFailureType) (reason : String)
  | reconnecting (p : LoginProxy)

/-- Error message of the redirect loop failure (the formatted destination
address of the C message is omitted). -/
def proxyingLoopsReason : String := "Proxying loops - already connected"

/-- login_proxy_redirect_finish (login-proxy.c lines 930-975): a loop —
the target equals the current destination, or a redirect-path entry for
the target has count at least PROXY_REDIRECT_LOOP_MIN_COUNT — fails with
internalConfig and no further connect; otherwise the TTL is decremented,
the redirect path is extended by the current destination (first time)
or the found entry's counter is bumped, the server side is disconnected,
the destination rewritten and connect re-entered. -/
def login_proxy_redirect_finish (p : LoginProxy) (ip port : Nat) :
    RedirectOutcome :=
  let redirect := login_proxy_redirect_find p ip port
  let looping :=
    if proxy_is_self p ip port then true
    else
      match redirect with
      | some r => decide (r.count ≥ PROXY_REDIRECT_LOOP_MIN_COUNT)
      | none => false
  if looping then
    .failed .internalConfig proxyingLoopsReason
  else
    let p :=
      { p with client := { p.client with proxy_ttl := p.client.proxy_ttl - 1 } }
    let p :=
      match redirect with
      | some _ =>
          { p with redirect_path := redirect_bump_first p.redirect_path ip port }
      | none =>
          { p with redirect_path :=
              p.redirect_path ++ [⟨p.ip, p.port, 1⟩] }
    let p := login_proxy_disconnect p
    let p := login_proxy_set_destination p ip port
    .reconnecting p

/-- proxy_plain_connected (login-proxy.c lines 231-248): create the
server input stream and the server output stream, the latter with an
unlimited (SIZE_MAX) buffer. -/
def proxy_plain_connected (p : LoginProxy) : LoginProxy :=
  { p with
    has_server_input := true,
    has_server_output := true,
    server_output_max_buffer := SIZE_MAX }

/-- login_proxy_detach (login-proxy.c lines 1174-1244): take over the
client streams, possibly collapse the multiplex indirection, cap the
client-side output buffer at PROXY_MAX_OUTBUF_SIZE, start the byte pump,
arm the notify timer when notify_refresh_secs is nonzero, register the
anvil session, and move the proxy from the pending list into the
detached list and the by-virtual-user hash. Written as one record
update; the two intermediate client-output buffer sizes the C code goes
through (the client stream's own and, under the multiplex collapse, the
multiplex original output's) are dead stores here because
o_stream_set_max_buffer_size caps the buffer afterwards in every case. -/
def login_proxy_detach (anvil_ok : Bool) (p : LoginProxy) : LoginProxy :=
  { p with
    to_timer := none,
    detached := true,
    has_client_input := true,
    has_client_output := true,
    has_multiplex_orig_input :=
      if p.has_multiplex_orig_input ∧ p.client_multiplex_output_matches
      then false else p.has_multiplex_orig_input,
    client_output_max_buffer := PROXY_MAX_OUTBUF_SIZE,
    has_iostream_proxy := true,
    to_notify_timer :=
      if p.notify_refresh_secs ≠ 0 then some (p.notify_refresh_secs * 1000)
      else p.to_notify_timer,
    anvil_connect_sent := anvil_ok,
    on_pending_list := false,
    on_detached_list := true,
    in_user_hash := true }

/-- Lifecycle phase of one proxy connection with respect to its connect
attempt, derived from the call structure of login-proxy.c: created
(struct freshly zeroed, before login_proxy_connect), connecting (after
the num_waiting_connections increment in login_proxy_connect line 442),
connEstablished (after the success path of proxy_wait_connect),
connFailed (after proxy_fail_connect), disconnected (after
login_proxy_disconnect). -/
inductive ConnPhase where
  | created
  | connecting
  | connEstablished
  | connFailed
  | disconnected
deriving DecidableEq

/-- Counter-relevant per-proxy state for the connect lifecycle: this
proxy's view of DestRec.num_waiting_connections and
num_proxying_connections (as integers so an underflow would be visible),
the num_waiting_connections_updated flag (counted), the connected flag,
and two ghost counters: connect attempts begun and decrements of
num_waiting_connections performed. -/
structure ConnState where
  num_waiting : Int
  num_proxying : Int
  counted : Bool
  connected : Bool
  phase : ConnPhase
  attempts : Nat
  decrements : Nat

/-- Lifecycle events of one proxy connection: evConnect is
login_proxy_connect up to and including the counter increment
(lines 441-442); evConnectOk is the success path of proxy_wait_connect
(lines 408-414); evConnectFail is proxy_fail_connect (lines 250-264);
evDisconnect is login_proxy_disconnect (lines 555-586). -/
inductive ConnEvent where
  | evConnect
  | evConnectOk
  | evConnectFail
  | evDisconnect
deriving DecidableEq

/-- State effect of each lifecycle event, translated from the
corresponding lines of login-proxy.c; the ghost counters record one
attempt per evConnect and one decrement per site that decrements
num_waiting_connections. -/
def connStep (s : ConnState) : ConnEvent → ConnState
  | .evConnect =>
      { s with
        num_waiting := s.num_waiting + 1,
        counted := false,
        phase := .connecting,
        attempts := s.attempts + 1 }
  | .evConnectOk =>
      { s with
        connected := true,
        counted := true,
        num_waiting := s.num_waiting - 1,
        num_proxying := s.num_proxying + 1,
        phase := .connEstablished,
        decrements := s.decrements + 1 }
  | .evConnectFail =>
      { s with
        num_waiting := s.num_waiting - 1,
        counted := true,
        phase := .connFailed,
        decrements := s.decrements + 1 }
  | .evDisconnect =>
      let s :=
        if !s.counted then
          { s with
            num_waiting := s.num_waiting - 1,
            counted := true,
            decrements := s.decrements + 1 }
        else s
      let s :=
        if s.connected then
          { s with num_proxying := s.num_proxying - 1 }
        else s
      { s with connected := false, phase := .disconnected }

/-- Which events can occur in which phase, from the call structure of
login-proxy.c: connect is entered at creation and re-entered only after
login_proxy_disconnect (reconnect timer, redirect); proxy_wait_connect
and proxy_fail_connect run only while a connect is in flight
(proxy_connect_failed calls proxy_fail_connect only when not connected);
login_proxy_disconnect can run in every phase after the first connect. -/
def connEnabled (s : ConnState) : ConnEvent → Bool
  | .evConnect => s.phase == .created || s.phase == .disconnected
  | .evConnectOk => s.phase == .connecting
  | .evConnectFail => s.phase == .connecting
  | .evDisconnect => s.phase != .created

/-- A freshly allocated proxy: i_new zeroes the struct, so the counted
flag starts false; no attempt has begun. -/
def connInit : ConnState :=
  { num_waiting := 0, num_proxying := 0, counted := false,
    connected := false, phase := .created, attempts := 0, decrements := 0 }

/-- Run a sequence of lifecycle events. -/
def connRun (s : ConnState) : List ConnEvent → ConnState
  | [] => s
  | ev :: evs => connRun (connStep s ev) evs

/-- An event sequence is valid when every event is enabled in the state
it fires in. -/
def connValid (s : ConnState) : List ConnEvent → Bool
  | [] => true
  | ev :: evs => connEnabled s ev && connValid (connStep s ev) evs

/-- Inductive invariant of the connect lifecycle: in every phase this
proxy holds exactly one waiting-connection slot while a connect is in
flight and none otherwise, the counted flag mirrors that, and the number
of decrements performed equals the number of attempts begun minus the
one still outstanding. -/
def connInv (s : ConnState) : Prop :=
  match s.phase with
  | .created =>
      s.num_waiting = 0 ∧ s.num_proxying = 0 ∧ s.counted = false ∧
      s.connected = false ∧ s.attempts = 0 ∧ s.decrements = 0
  | .connecting =>
      s.num_waiting = 1 ∧ s.num_proxying = 0 ∧ s.counted = false ∧
      s.connected = false ∧ s.attempts = s.decrements + 1
  | .connEstablished =>
      s.num_waiting = 0 ∧ s.num_proxying = 1 ∧ s.counted = true ∧
      s.connected = true ∧ s.attempts = s.decrements
  | .connFailed =>
      s.num_waiting = 0 ∧ s.num_proxying = 0 ∧ s.counted = true ∧
      s.connected = false ∧ s.attempts = s.decrements
  | .disconnected =>
      s.num_waiting = 0 ∧ s.num_proxying = 0 ∧ s.counted = true ∧
      s.connected = false ∧ s.attempts = s.decrements

theorem connInv_init : connInv connInit := by
  simp [connInv, connInit]

theorem connInv_step (s : ConnState) (ev : ConnEvent)
    (hinv : connInv s) (hen : connEnabled s ev = true) :
    connInv (connStep s ev) := by
  cases ev <;> cases hphase : s.phase <;>
    simp [connEnabled, hphase] at hen <;>
    simp [connInv, hphase] at hinv <;>
    simp [connStep, connInv, hphase, hinv]

theorem connInv_run (s : ConnState) (evs : List ConnEvent)
    (hinv : connInv s) (hval : connValid s evs = true) :
    connInv (connRun s evs) := by
  induction evs generalizing s with
  | nil => simpa [connRun] using hinv
  | cons ev evs ih =>
      simp only [connValid, Bool.and_eq_true] at hval
      exact ih (connStep s ev) (connInv_step s ev hinv hval.1) hval.2

/-- A concrete client used for concrete evaluations. -/
def baseClient : ClientInfo :=
  { virtual_user := "user", proxy_ttl := 5, local_ip := 2, local_port := 143,
    login_proxy_max_reconnects := 3, login_proxy_max_disconnect_delay := 0,
    output_max_buffer := SIZE_MAX }

/-- A concrete destination record used for concrete evaluations. -/
def baseRecord : LoginProxyRecord :=
  { last_success := 0, last_failure := 0, num_waiting_connections := 0,
    num_proxying_connections := 0, num_disconnects_since_ts := 0,
    num_delayed_client_disconnects := 0, disconnect_timestamp := 0 }

/-- A concrete proxy in the authenticated, not yet detached state,
destination ip 1 port 110, used for concrete evaluations. -/
def baseProxy : LoginProxy :=
  { client := baseClient, ip := 1, port := 110, host := 1,
    state_rec := baseRecord, rec_key := (1, 110), redirect_path := [],
    connect_timeout_msecs := 5000, notify_refresh_secs := 0,
    reconnect_count := 0, created := 0, to_timer := none,
    to_notify_timer := none, has_server_input := true,
    has_server_output := true, server_output_max_buffer := SIZE_MAX,
    has_client_input := false, has_client_output := false,
    client_output_max_buffer := 0, has_iostream_proxy := false,
    has_client_wait_watch := false, server_fd_open := true,
    has_multiplex_orig_input := false,
    client_multiplex_output_matches := false,
    client_multiplex_orig_output_max := 0, on_pending_list := true,
    on_detached_list := false, on_disconnecting_list := false,
    in_user_hash := false, connected := true, detached := false,
    destroying := false, delayed_disconnect := false,
    disable_reconnect := false, anvil_connect_sent := false,
    num_waiting_connections_updated := true }

/-- Claim C7: for the PLAIN mechanism with authid and password set,
output produces exactly authzid NUL authid NUL password (the authzid
part empty but its NUL kept when unset) with result ok and marks the
output as sent; before the output is produced, input returns ok exactly
on the empty challenge and errProtocol otherwise; after the output is
produced every input returns errProtocol. -/
theorem C7_plain_mechanism (c : PlainDsaslClient) (a pw : List Nat)
    (ha : c.set.authid = some a) (hp : c.set.password = some pw) :
    mech_plain_output c =
      (.ok, c.set.authzid.getD [] ++ [0] ++ a ++ [0] ++ pw,
        { c with output_sent := true }) ∧
    (∀ input, c.output_sent = false →
      (mech_plain_input c input = .ok ↔ input = [])) ∧
    (∀ input, c.output_sent = false → input ≠ [] →
      mech_plain_input c input = .errProtocol) ∧
    (∀ input,
      mech_plain_input (mech_plain_output c).2.2 input = .errProtocol) := by
  have hout : mech_plain_output c =
      (.ok, c.set.authzid.getD [] ++ [0] ++ a ++ [0] ++ pw,
        { c with output_sent := true }) := by
    cases hz : c.set.authzid <;>
      simp [mech_plain_output, ha, hp, hz, Option.getD]
  refine ⟨hout, ?_, ?_, ?_⟩
  · intro input hsent
    cases input <;> simp [mech_plain_input, hsent]
  · intro input hsent hne
    cases input with
    | nil => exact absurd rfl hne
    | cons b bs => simp [mech_plain_input, hsent]
  · intro input
    rw [hout]
    simp [mech_plain_input]

/-- Claim C7 witness: concrete PLAIN client, authid 97, password 98,
no authzid. -/
theorem C7_plain_mechanism_witness :
    mech_plain_output ⟨⟨some [97], none, some [98]⟩, false⟩ =
      (.ok, [0, 97, 0, 98], ⟨⟨some [97], none, some [98]⟩, true⟩) ∧
    mech_plain_input
      (mech_plain_output ⟨⟨some [97], none, some [98]⟩, false⟩).2.2 [] =
      .errProtocol := by
  have h := C7_plain_mechanism ⟨⟨some [97], none, some [98]⟩, false⟩
    [97] [98] rfl rfl
  exact ⟨h.1, h.2.2.2 []⟩

/-- Claim C8: for the LOGIN mechanism with authid and password set,
output produces the empty string in STATE_INIT, authid in STATE_USER and
password in STATE_PASS; every successful input advances the state
counter by one; input in STATE_PASS returns errProtocol; and in the
alternating exchange from STATE_INIT a fourth input returns
errProtocol. -/
theorem C8_login_mechanism (c : LoginDsaslClient) (a pw : List Nat)
    (ha : c.set.authid = some a) (hp : c.set.password = some pw) :
    mech_login_output { c with state := .STATE_INIT } = (.ok, []) ∧
    mech_login_output { c with state := .STATE_USER } = (.ok, a) ∧
    mech_login_output { c with state := .STATE_PASS } = (.ok, pw) ∧
    (∀ input, c.state ≠ .STATE_PASS →
      mech_login_input c input =
        (.ok, { c with state := loginStateNext c.state })) ∧
    (∀ input, mech_login_input { c with state := .STATE_PASS } input =
      (.errProtocol, { c with state := .STATE_PASS })) ∧
    (∀ i1 i2 i3 i4,
      (mech_login_input (mech_login_input (mech_login_input
        (mech_login_input { c with state := .STATE_INIT } i1).2 i2).2
          i3).2 i4).1 = .errProtocol) := by
  refine ⟨?_, ?_, ?_, ?_, ?_, ?_⟩
  · simp [mech_login_output, ha, hp]
  · simp [mech_login_output, ha, hp]
  · simp [mech_login_output, ha, hp]
  · intro input hne
    simp [mech_login_input, hne]
  · intro input
    simp [mech_login_input]
  · intro i1 i2 i3 i4
    simp [mech_login_input, loginStateNext]

/-- Claim C8 witness: concrete LOGIN client, authid 97, password 98. -/
theorem C8_login_mechanism_witness :
    mech_login_output ⟨⟨some [97], none, some [98]⟩, .STATE_USER⟩ =
      (.ok, [97]) ∧
    (mech_login_input (mech_login_input (mech_login_input
      (mech_login_input ⟨⟨some [97], none, some [98]⟩, .STATE_INIT⟩
        []).2 []).2 []).2 []).1 = .errProtocol := by
  have h := C8_login_mechanism ⟨⟨some [97], none, some [98]⟩, .STATE_INIT⟩
    [97] [98] rfl rfl
  exact ⟨h.2.1, h.2.2.2.2.2 [] [] [] []⟩

/-- Claim C9: LOGIN input never inspects the challenge bytes — the
result is identical for any two challenges, and in the states STATE_INIT
and STATE_USER every input, the non-empty initial challenge included,
returns ok and advances the state; only STATE_PASS produces an error. -/
theorem C9_login_input_ignores_challenge (c : LoginDsaslClient)
    (input other : List Nat) :
    mech_login_input c input = mech_login_input c other ∧
    (c.state ≠ .STATE_PASS →
      mech_login_input c input =
        (.ok, { c with state := loginStateNext c.state })) ∧
    (c.state = .STATE_PASS →
      mech_login_input c input = (.errProtocol, c)) := by
  refine ⟨rfl, ?_, ?_⟩
  · intro hne
    simp [mech_login_input, hne]
  · intro heq
    simp [mech_login_input, heq]

/-- Claim C9 witness: a malformed non-empty challenge in STATE_INIT is
accepted and advances the state. -/
theorem C9_login_input_ignores_challenge_witness :
    mech_login_input ⟨⟨some [97], none, some [98]⟩, .STATE_INIT⟩
      [1, 2, 3] =
      (.ok, ⟨⟨some [97], none, some [98]⟩, .STATE_USER⟩) := by
  have h := C9_login_input_ignores_challenge
    ⟨⟨some [97], none, some [98]⟩, .STATE_INIT⟩ [1, 2, 3] []
  exact h.2.1 (by decide)

/-- Claim C3: along every valid sequence of lifecycle events from a
fresh proxy, the proxy's contribution to
DestRec.num_waiting_connections never goes negative, and each connect
attempt is decremented exactly once: while a connect is in flight
(phase connecting, counted flag still clear) the decrement of the
current attempt is outstanding, and in every other phase the number of
decrements performed equals the number of attempts begun. -/
theorem C3_num_waiting_invariant (evs : List ConnEvent)
    (h : connValid connInit evs = true) :
    0 ≤ (connRun connInit evs).num_waiting ∧
    (connRun connInit evs).num_waiting ≤ 1 ∧
    ((connRun connInit evs).phase = .connecting →
      (connRun connInit evs).attempts =
        (connRun connInit evs).decrements + 1) ∧
    ((connRun connInit evs).phase ≠ .connecting →
      (connRun connInit evs).attempts =
        (connRun connInit evs).decrements) := by
  have hinv := connInv_run connInit evs connInv_init h
  rcases hphase : (connRun connInit evs).phase <;>
    rw [connInv, hphase] at hinv <;>
    simp [hphase, hinv]

/-- Claim C3 witness: a concrete lifecycle — connect, failure, reconnect
after disconnect, success, final disconnect. -/
theorem C3_num_waiting_invariant_witness :
    connValid connInit
      [.evConnect, .evConnectFail, .evDisconnect, .evConnect,
       .evConnectOk, .evDisconnect] = true ∧
    0 ≤ (connRun connInit
      [.evConnect, .evConnectFail, .evDisconnect, .evConnect,
       .evConnectOk, .evDisconnect]).num_waiting ∧
    (connRun connInit
      [.evConnect, .evConnectFail, .evDisconnect, .evConnect,
       .evConnectOk, .evDisconnect]).attempts =
      (connRun connInit
        [.evConnect, .evConnectFail, .evDisconnect, .evConnect,
         .evConnectOk, .evDisconnect]).decrements := by
  have h := C3_num_waiting_invariant
    [.evConnect, .evConnectFail, .evDisconnect, .evConnect,
     .evConnectOk, .evDisconnect] (by decide)
  exact ⟨by decide, h.1, h.2.2.2 (by decide)⟩

theorem destroying_login_proxy_disconnect (p : LoginProxy) :
    (login_proxy_disconnect p).destroying = p.destroying := by
  rw [login_proxy_disconnect]
  split <;> split <;> rfl

theorem destroying_login_proxy_detached_unlink (p : LoginProxy) :
    (login_proxy_detached_unlink p).destroying = p.destroying := rfl

theorem destroying_login_proxy_delay_disconnect (e : Env) (p : LoginProxy) :
    (login_proxy_delay_disconnect e p).2.destroying = p.destroying := by
  rw [login_proxy_delay_disconnect]
  dsimp only
  repeat' split
  all_goals rfl

theorem destroying_login_proxy_free_final (p : LoginProxy) :
    (login_proxy_free_final p).destroying = p.destroying := by
  rw [login_proxy_free_final]
  dsimp only
  repeat' split
  all_goals rfl

theorem destroying_login_proxy_free_full (e : Env) (d : Bool)
    (p : LoginProxy) : (login_proxy_free_full e d p).destroying = true := by
  rw [login_proxy_free_full]
  by_cases hp : p.destroying = true
  · simp [hp]
  · simp only [hp, Bool.false_eq_true, if_false]
    repeat' split
    all_goals
      simp [destroying_login_proxy_free_final,
        destroying_login_proxy_delay_disconnect,
        destroying_login_proxy_detached_unlink,
        destroying_login_proxy_disconnect]

theorem login_proxy_free_full_of_destroying (e : Env) (d : Bool)
    (p : LoginProxy) (h : p.destroying = true) :
    login_proxy_free_full e d p = p := by
  rw [login_proxy_free_full, if_pos h]

/-- Claim C4: freeing is idempotent — a second login_proxy_free_full
during or after teardown, with any flags and at any later time, is a
no-op: the write-once destroying flag makes the composed call equal to
the single call. -/
theorem C4_free_full_idempotent (e e' : Env) (d d' : Bool)
    (p : LoginProxy) :
    login_proxy_free_full e' d' (login_proxy_free_full e d p) =
      login_proxy_free_full e d p :=
  login_proxy_free_full_of_destroying e' d' _
    (destroying_login_proxy_free_full e d p)

/-- Claim C10: when the final free of a delayed-disconnect proxy brings
DestRec.num_delayed_client_disconnects down to zero,
num_disconnects_since_ts is reset to zero; and a later delayed
disconnect finding num_disconnects_since_ts zero re-randomizes the smear
anchor to now plus the fresh jitter. -/
theorem C10_smear_window_reset (p q : LoginProxy) (e : Env)
    (hd : p.delayed_disconnect = true)
    (h1 : p.state_rec.num_delayed_client_disconnects = 1)
    (h0 : q.state_rec.num_disconnects_since_ts = 0) :
    (login_proxy_free_final p).state_rec.num_disconnects_since_ts = 0 ∧
    (login_proxy_delay_disconnect e q).2.state_rec.disconnect_timestamp =
      e.now + (e.jitter : Int) := by
  constructor
  · rw [login_proxy_free_final]
    simp [hd, h1]
  · rw [login_proxy_delay_disconnect]
    simp only [h0, if_pos rfl]
    repeat' split
    all_goals simp_all

/-- Claim C10 witness: a concrete delayed proxy whose final free resets
the window, and a fresh-window delayed disconnect stamping now + 7. -/
theorem C10_smear_window_reset_witness :
    (login_proxy_free_final
      { baseProxy with
        delayed_disconnect := true,
        state_rec := { baseRecord with
                       num_delayed_client_disconnects := 1,
                       num_disconnects_since_ts := 9 } }).state_rec.num_disconnects_since_ts = 0 ∧
    (login_proxy_delay_disconnect ⟨50000, 7⟩
      baseProxy).2.state_rec.disconnect_timestamp = 50000 + (7 : Int) := by
  have h := C10_smear_window_reset
    { baseProxy with
      delayed_disconnect := true,
      state_rec := { baseRecord with
                     num_delayed_client_disconnects := 1,
                     num_disconnects_since_ts := 9 } }
    baseProxy ⟨50000, 7⟩ (by decide) (by decide) (by decide)
  exact h

/-- The redirect loop condition exactly as the specification words it:
the target equals the CLIENT'S ACCEPT SOCKET'S local address, or the
target has already appeared in redirect_path with count at least 2.
Stated for comparison with the source-derived behaviour of
login_proxy_redirect_finish, whose self test compares against the
proxy's current destination instead. -/
def spec_redirect_loop_cond (p : LoginProxy) (ip port : Nat) : Bool :=
  (p.client.local_ip == ip && p.client.local_port == port) ||
  (match login_proxy_redirect_find p ip port with
   | some r => decide (2 ≤ r.count)
   | none => false)

/-- Claim C1 counterexample: redirecting baseProxy (destination ip 1
port 110, client accept socket ip 2 port 143, empty redirect path) to
its own current destination fails as a proxying loop even though the
spec's condition — client accept socket match or redirect-path count at
least 2 — is false there. -/
theorem C1_redirect_loop_counterexample :
    login_proxy_redirect_finish baseProxy 1 110 =
      .failed .internalConfig proxyingLoopsReason ∧
    spec_redirect_loop_cond baseProxy 1 110 = false := by
  constructor
  · rfl
  · rfl

theorem client_login_proxy_disconnect (p : LoginProxy) :
    (login_proxy_disconnect p).client = p.client := by
  rw [login_proxy_disconnect]
  split <;> split <;> rfl

theorem connected_login_proxy_disconnect (p : LoginProxy) :
    (login_proxy_disconnect p).connected = false := rfl

theorem redirect_path_login_proxy_disconnect (p : LoginProxy) :
    (login_proxy_disconnect p).redirect_path = p.redirect_path := by
  rw [login_proxy_disconnect]
  split <;> split <;> rfl

/-- Claim C1 as amended: redirect_finish fails with internalConfig
"Proxying loops" exactly when the target equals the proxy's CURRENT
DESTINATION address (proxy_is_self) or the target already appears in
redirect_path with count at least PROXY_REDIRECT_LOOP_MIN_COUNT; in the
looping case no connect is re-entered, and otherwise the TTL is
decremented, the current destination is appended to redirect_path with
count 1 the first time (else the found entry's counter is bumped), the
server side is disconnected, the destination is rewritten to the target
and connect is re-entered. -/
theorem C1_redirect_loop_amended (p : LoginProxy) (ip port : Nat)
    (httl : 0 < p.client.proxy_ttl) :
    (login_proxy_redirect_finish p ip port =
        .failed .internalConfig proxyingLoopsReason ↔
      (proxy_is_self p ip port = true ∨
        ∃ r, login_proxy_redirect_find p ip port = some r ∧
          PROXY_REDIRECT_LOOP_MIN_COUNT ≤ r.count)) ∧
    (∀ q, login_proxy_redirect_finish p ip port = .reconnecting q →
      q.client.proxy_ttl = p.client.proxy_ttl - 1 ∧
      q.ip = ip ∧ q.port = port ∧ q.connected = false ∧
      (login_proxy_redirect_find p ip port = none →
        q.redirect_path = p.redirect_path ++ [⟨p.ip, p.port, 1⟩]) ∧
      (∀ r, login_proxy_redirect_find p ip port = some r →
        q.redirect_path = redirect_bump_first p.redirect_path ip port)) ∧
    ((proxy_is_self p ip port = false ∧
        ¬∃ r, login_proxy_redirect_find p ip port = some r ∧
          PROXY_REDIRECT_LOOP_MIN_COUNT ≤ r.count) →
      ∃ q, login_proxy_redirect_finish p ip port = .reconnecting q) := by
  rw [login_proxy_redirect_finish]
  by_cases hself : proxy_is_self p ip port
  · refine ⟨by simp [hself], ?_, ?_⟩
    · intro q hq
      simp [hself] at hq
    · intro hcond
      rw [hself] at hcond
      exact absurd hcond.1 (by simp)
  · cases hfind : login_proxy_redirect_find p ip port with
    | none =>
        simp only [hfind, hself]
        refine ⟨by simp [hself, hfind], ?_, by simp⟩
        intro q hq
        simp only [Bool.false_eq_true, if_false] at hq
        injection hq with hq
        subst hq
        refine ⟨?_, rfl, rfl, ?_, ?_, ?_⟩
        · rw [login_proxy_set_destination]
          dsimp only
          rw [client_login_proxy_disconnect]
        · rw [login_proxy_set_destination]
          dsimp only
          rw [connected_login_proxy_disconnect]
        · intro _
          rw [login_proxy_set_destination]
          dsimp only
          rw [redirect_path_login_proxy_disconnect]
        · intro r hr
          cases hr
    | some r =>
        by_cases hcount : PROXY_REDIRECT_LOOP_MIN_COUNT ≤ r.count
        · simp only [hfind, hself]
          refine ⟨by simp [hcount], ?_, ?_⟩
          · intro q hq
            simp [hcount] at hq
          · intro hcond
            exact absurd ⟨r, rfl, hcount⟩ hcond.2
        · simp only [hfind, hself, decide_eq_true_eq,
            if_neg hcount, Bool.false_eq_true, if_false]
          refine ⟨?_, ?_, by simp⟩
          · constructor
            · intro h
              cases h
            · rintro (h | ⟨r', hr', hc'⟩)
              · exact absurd h (by simp [hself])
              · injection hr' with hr'
                subst hr'
                exact absurd hc' hcount
          · intro q hq
            injection hq with hq
            subst hq
            refine ⟨?_, rfl, rfl, ?_, ?_, ?_⟩
            · rw [login_proxy_set_destination]
              dsimp only
              rw [client_login_proxy_disconnect]
            · rw [login_proxy_set_destination]
              dsimp only
              rw [connected_login_proxy_disconnect]
            · intro hnone
              cases hnone
            · intro r' hr'
              rw [login_proxy_set_destination]
              dsimp only
              rw [redirect_path_login_proxy_disconnect]

/-- Claim C1 witness: redirecting baseProxy to a fresh destination
ip 3 port 993 re-enters connect with TTL 4 and records the old
destination in the redirect path. -/
theorem C1_redirect_loop_amended_witness :
    ∃ q, login_proxy_redirect_finish baseProxy 3 993 = .reconnecting q := by
  have h := C1_redirect_loop_amended baseProxy 3 993 (by decide)
  exact h.2.2 (by decide)

/-- Claim C2 counterexample: with the reconnect budget available and
reconnects enabled, a remaining budget of exactly
PROXY_CONNECT_RETRY_MIN_MSECS (1100 ms) — which the claim calls
sufficient ("at least 1100") — is refused by proxy_try_reconnect:
the code requires the budget to be strictly greater. -/
theorem C2_reconnect_counterexample :
    baseProxy.reconnect_count <
      baseProxy.client.login_proxy_max_reconnects ∧
    baseProxy.disable_reconnect = false ∧
    (baseProxy.connect_timeout_msecs : Int) -
      ((3900 : Int) - baseProxy.created) =
      (PROXY_CONNECT_RETRY_MIN_MSECS : Int) ∧
    (proxy_try_reconnect ⟨3900, 0⟩ baseProxy).1 = false := by
  refine ⟨by decide, rfl, by decide, ?_⟩
  rfl

/-- Claim C2 as amended: after a retry-eligible failure the proxy
reconnects exactly when reconnect_count < login_proxy_max_reconnects,
reconnects are not disabled, the elapsed time since creation is
non-negative (time did not move backwards), and the remaining budget
connect_timeout_msecs minus elapsed is STRICTLY GREATER than
PROXY_CONNECT_RETRY_MIN_MSECS (1100); when it reconnects it disconnects
the server side, arms a one-shot PROXY_CONNECT_RETRY_MSECS (1000) timer
that re-enters connect, and increments reconnect_count by one. -/
theorem C2_reconnect_amended (e : Env) (p : LoginProxy) :
    ((proxy_try_reconnect e p).1 = true ↔
      (p.reconnect_count < p.client.login_proxy_max_reconnects ∧
       p.disable_reconnect = false ∧
       0 ≤ e.now - p.created ∧
       (PROXY_CONNECT_RETRY_MIN_MSECS : Int) <
         (p.connect_timeout_msecs : Int) - (e.now - p.created))) ∧
    ((proxy_try_reconnect e p).1 = true →
      (proxy_try_reconnect e p).2 =
        { login_proxy_disconnect p with
          to_timer := some PROXY_CONNECT_RETRY_MSECS,
          reconnect_count :=
            (login_proxy_disconnect p).reconnect_count + 1 }) := by
  rw [proxy_try_reconnect]
  dsimp only
  split_ifs with h1 h2 h3 h4
  · exact ⟨⟨fun h => by simp at h, fun hr => absurd hr.1 (by omega)⟩,
      fun h => by simp at h⟩
  · exact ⟨⟨fun h => by simp at h, fun hr => by simp [h2] at hr⟩,
      fun h => by simp at h⟩
  · exact ⟨⟨fun h => by simp at h, fun hr => absurd hr.2.2.1 (by omega)⟩,
      fun h => by simp at h⟩
  · exact ⟨⟨fun h => by simp at h, fun hr => absurd hr.2.2.2 (by omega)⟩,
      fun h => by simp at h⟩
  · exact ⟨⟨fun _ => ⟨lt_of_not_le h1, by simpa using h2,
      not_lt.mp h3, not_le.mp h4⟩, fun _ => rfl⟩, fun _ => rfl⟩

/-- Claim C2 witness: with 4000 ms of budget left the proxy reconnects. -/
theorem C2_reconnect_amended_witness :
    (proxy_try_reconnect ⟨1000, 0⟩ baseProxy).1 = true :=
  (C2_reconnect_amended ⟨1000, 0⟩ baseProxy).1.mpr
    ⟨by decide, rfl, by decide, by decide⟩

/-- Claim C5 counterexample: detaching a proxy whose server output
stream was created by proxy_plain_connected leaves the SERVER-side
output buffer at SIZE_MAX — it is the CLIENT-side output buffer that
login_proxy_detach caps at PROXY_MAX_OUTBUF_SIZE, contradicting the
claim that the server-side buffer is capped at 1024. -/
theorem C5_detach_counterexample :
    (login_proxy_detach true
      (proxy_plain_connected baseProxy)).server_output_max_buffer =
      SIZE_MAX ∧
    SIZE_MAX ≠ PROXY_MAX_OUTBUF_SIZE ∧
    (login_proxy_detach true
      (proxy_plain_connected baseProxy)).client_output_max_buffer =
      PROXY_MAX_OUTBUF_SIZE := by
  refine ⟨rfl, by decide, rfl⟩

/-- Claim C5 as amended: detach — whose preconditions are that
server_input and server_output exist and the proxy is not already
detached — caps the CLIENT-side output buffer at PROXY_MAX_OUTBUF_SIZE
(1024) while the server-side output buffer, SIZE_MAX since
proxy_plain_connected created it, is left unchanged; it starts the
IoStreamProxy byte pump, arms the notify timer exactly when
notify_refresh_secs is nonzero, and moves the proxy from the pending
list into the detached list and the by-virtual-user map. -/
theorem C5_detach_amended (anvil : Bool) (p : LoginProxy)
    (hsi : p.has_server_input = true) (hso : p.has_server_output = true)
    (hnd : p.detached = false) :
    (login_proxy_detach anvil p).client_output_max_buffer =
      PROXY_MAX_OUTBUF_SIZE ∧
    (login_proxy_detach anvil p).server_output_max_buffer =
      p.server_output_max_buffer ∧
    (proxy_plain_connected p).server_output_max_buffer = SIZE_MAX ∧
    (login_proxy_detach anvil p).has_iostream_proxy = true ∧
    (p.notify_refresh_secs ≠ 0 →
      (login_proxy_detach anvil p).to_notify_timer =
        some (p.notify_refresh_secs * 1000)) ∧
    (p.notify_refresh_secs = 0 →
      (login_proxy_detach anvil p).to_notify_timer = p.to_notify_timer) ∧
    (login_proxy_detach anvil p).on_pending_list = false ∧
    (login_proxy_detach anvil p).on_detached_list = true ∧
    (login_proxy_detach anvil p).in_user_hash = true ∧
    (login_proxy_detach anvil p).detached = true := by
  rw [login_proxy_detach]
  dsimp only
  repeat' split
  all_goals simp_all [proxy_plain_connected]

/-- Claim C5 witness: concrete detach of the authenticated baseProxy. -/
theorem C5_detach_amended_witness :
    (login_proxy_detach true baseProxy).client_output_max_buffer =
      PROXY_MAX_OUTBUF_SIZE ∧
    (login_proxy_detach true baseProxy).on_detached_list = true := by
  have h := C5_detach_amended true baseProxy rfl rfl rfl
  exact ⟨h.1, h.2.2.2.2.2.2.2.1⟩

/-- A concrete proxy in the disconnect-smear scenario: max disconnect
delay 4 s, five disconnects already counted since the anchor (which is
at time 0), no proxying connections and no delayed disconnects in
flight. -/
def smearProxy : LoginProxy :=
  { baseProxy with
    client := { baseClient with login_proxy_max_disconnect_delay := 4 },
    state_rec := { baseRecord with num_disconnects_since_ts := 5 } }

/-- Claim C6 counterexample: at time 100000 the smear condition is in
its "otherwise" case (post-increment count 6 exceeds per-second budget
2), yet the computed schedule instant anchor + 4000 ms lies in the past,
so login_proxy_delay_disconnect frees immediately — it does not place
the proxy on the disconnecting list and does not increment
num_delayed_client_disconnects as the claim asserts for this case. -/
theorem C6_delay_disconnect_counterexample :
    ¬(smearProxy.state_rec.num_disconnects_since_ts + 1 ≤
        (smearProxy.state_rec.num_proxying_connections +
          (smearProxy.state_rec.num_disconnects_since_ts + 1)) ⌈/⌉
          smearProxy.client.login_proxy_max_disconnect_delay ∧
      smearProxy.state_rec.num_delayed_client_disconnects = 0) ∧
    (login_proxy_delay_disconnect ⟨100000, 7⟩ smearProxy).1 = 0 ∧
    (login_proxy_delay_disconnect ⟨100000, 7⟩
      smearProxy).2.on_disconnecting_list = false ∧
    (login_proxy_delay_disconnect ⟨100000, 7⟩
      smearProxy).2.state_rec.num_delayed_client_disconnects = 0 ∧
    (login_proxy_delay_disconnect ⟨100000, 7⟩
      smearProxy).2.delayed_disconnect = false := by
  refine ⟨by decide, rfl, rfl, rfl, rfl⟩

/-- Claim C6 as amended: for a delayed free with
login_proxy_max_disconnect_delay positive and the main timer slot empty,
writing n for the post-increment num_disconnects_since_ts, ts for the
smear anchor (re-randomized to now + jitter when n is the first since a
reset), max_conns = num_proxying + n, per_sec = ceil division of
max_conns by the max delay, and offset = 100 * (max_delay * n * 10 /
max_conns): when n ≤ per_sec and no delayed disconnects are in flight
the disconnect is immediate; otherwise, if the instant ts + offset has
already passed the disconnect is ALSO immediate; and only if ts + offset
is still in the future is the final free scheduled after
(ts + offset − now) ms, the proxy placed on the disconnecting list and
num_delayed_client_disconnects incremented. In every case
num_disconnects_since_ts becomes n and the anchor becomes ts. -/
theorem C6_delay_disconnect_amended (e : Env) (p : LoginProxy)
    (hto : p.to_timer = none)
    (hmd : 0 < p.client.login_proxy_max_disconnect_delay)
    (n : Nat) (hn : n = p.state_rec.num_disconnects_since_ts + 1)
    (ts : Int)
    (hts : ts = if p.state_rec.num_disconnects_since_ts = 0 then
      e.now + (e.jitter : Int) else p.state_rec.disconnect_timestamp)
    (mc : Nat) (hmc : mc = p.state_rec.num_proxying_connections + n)
    (ps : Nat)
    (hps : ps = mc ⌈/⌉ p.client.login_proxy_max_disconnect_delay)
    (off : Nat)
    (hoff : off = PROXY_DISCONNECT_INTERVAL_MSECS *
      (p.client.login_proxy_max_disconnect_delay * n *
        (1000 / PROXY_DISCONNECT_INTERVAL_MSECS) / mc)) :
    ((n ≤ ps ∧ p.state_rec.num_delayed_client_disconnects = 0) →
      (login_proxy_delay_disconnect e p).1 = 0 ∧
      (login_proxy_delay_disconnect e p).2.on_disconnecting_list =
        p.on_disconnecting_list ∧
      (login_proxy_delay_disconnect e p).2.state_rec.num_delayed_client_disconnects =
        p.state_rec.num_delayed_client_disconnects ∧
      (login_proxy_delay_disconnect e p).2.delayed_disconnect =
        p.delayed_disconnect) ∧
    (¬(n ≤ ps ∧ p.state_rec.num_delayed_client_disconnects = 0) →
      ts + (off : Int) ≤ e.now →
      (login_proxy_delay_disconnect e p).1 = 0 ∧
      (login_proxy_delay_disconnect e p).2.on_disconnecting_list =
        p.on_disconnecting_list ∧
      (login_proxy_delay_disconnect e p).2.state_rec.num_delayed_client_disconnects =
        p.state_rec.num_delayed_client_disconnects) ∧
    (¬(n ≤ ps ∧ p.state_rec.num_delayed_client_disconnects = 0) →
      e.now < ts + (off : Int) →
      (login_proxy_delay_disconnect e p).1 =
        (ts + (off : Int) - e.now).toNat ∧
      (login_proxy_delay_disconnect e p).2.delayed_disconnect = true ∧
      (login_proxy_delay_disconnect e p).2.on_disconnecting_list = true ∧
      (login_proxy_delay_disconnect e p).2.state_rec.num_delayed_client_disconnects =
        p.state_rec.num_delayed_client_disconnects + 1 ∧
      (login_proxy_delay_disconnect e p).2.to_timer =
        some (ts + (off : Int) - e.now).toNat) ∧
    (login_proxy_delay_disconnect e p).2.state_rec.num_disconnects_since_ts = n ∧
    (login_proxy_delay_disconnect e p).2.state_rec.disconnect_timestamp = ts := by
  rw [Nat.ceilDiv_eq_add_pred_div] at hps
  subst hn hmc hoff hps
  by_cases hfirst : p.state_rec.num_disconnects_since_ts = 0
  · rw [if_pos hfirst] at hts
    subst hts
    rw [login_proxy_delay_disconnect]
    dsimp only
    rw [hto]
    simp only [Option.isSome_none, Bool.false_eq_true, if_false,
      if_neg (Nat.pos_iff_ne_zero.mp hmd), if_pos hfirst]
    split_ifs with hc hd
    · exact ⟨fun _ => ⟨rfl, rfl, rfl, rfl⟩, fun hn _ => absurd hc hn,
        fun hn _ => absurd hc hn, rfl, rfl⟩
    · exact ⟨fun hcond => absurd hcond hc, fun _ _ => ⟨rfl, rfl, rfl⟩,
        fun _ hs => absurd hs (by omega), rfl, rfl⟩
    · exact ⟨fun hcond => absurd hcond hc, fun _ hs => absurd hs (by omega),
        fun _ _ => ⟨rfl, rfl, rfl, rfl, rfl⟩, rfl, rfl⟩
  · rw [if_neg hfirst] at hts
    subst hts
    rw [login_proxy_delay_disconnect]
    dsimp only
    rw [hto]
    simp only [Option.isSome_none, Bool.false_eq_true, if_false,
      if_neg (Nat.pos_iff_ne_zero.mp hmd), if_neg hfirst]
    split_ifs with hc hd
    · exact ⟨fun _ => ⟨rfl, rfl, rfl, rfl⟩, fun hn _ => absurd hc hn,
        fun hn _ => absurd hc hn, rfl, rfl⟩
    · exact ⟨fun hcond => absurd hcond hc, fun _ _ => ⟨rfl, rfl, rfl⟩,
        fun _ hs => absurd hs (by omega), rfl, rfl⟩
    · exact ⟨fun hcond => absurd hcond hc, fun _ hs => absurd hs (by omega),
        fun _ _ => ⟨rfl, rfl, rfl, rfl, rfl⟩, rfl, rfl⟩

/-- Claim C6 witness: with the anchor at 99000 and now 100000 the
schedule instant 103000 is in the future, so the free is delayed by
3000 ms, the proxy joins the disconnecting list and the delayed counter
is incremented. -/
theorem C6_delay_disconnect_amended_witness :
    (login_proxy_delay_disconnect ⟨100000, 7⟩
      { smearProxy with
        state_rec := { smearProxy.state_rec with
                       disconnect_timestamp := 99000 } }).1 = 3000 ∧
    (login_proxy_delay_disconnect ⟨100000, 7⟩
      { smearProxy with
        state_rec := { smearProxy.state_rec with
                       disconnect_timestamp := 99000 } }).2.on_disconnecting_list =
      true := by
  have h := C6_delay_disconnect_amended ⟨100000, 7⟩
    { smearProxy with
      state_rec := { smearProxy.state_rec with
                     disconnect_timestamp := 99000 } }
    rfl (by decide) 6 (by decide) 99000 (by decide) 6 (by decide)
    2 (by decide) 4000 (by decide)
  have h3 := h.2.2.1 (by decide) (by decide)
  exact ⟨h3.1, h3.2.2.1⟩

end Dovecot
